import Mathlib

/-!
Verification of the Screen component of the Pleroma repository
(`src/screen.rs`), a windowing/render-surface abstraction over a native
graphics backend.  The Rust code is shallowly embedded: the `Screen`
struct and its methods become Lean functions over an explicit `Screen`
state, and the opaque graphics backend becomes a `Backend` value that
records render-target allocation (`load`) and release (`unload`) events,
so that surface-lifecycle properties (single live surface, double-free)
are statements about the event log.

Floating point is idealised: the Rust `f32` field `render_ratio` is
modelled as an exact rational, and the cast `(expr) as i32` on the exact
value of a float expression is modelled as truncation toward zero
(`f32` rounding error and cast saturation are abstracted away; every
concrete value in this development is small enough for the abstraction
to agree with the code).
-/

namespace Pleroma

/-- WindowState (screen.rs). -/
inductive WindowState
  | Windowed
  | Fullscreen
  | Borderless
deriving DecidableEq

/-- Resolution (screen.rs): a pair of `i32` dimensions, modelled on `Int`. -/
structure Resolution where
  width : Int
  height : Int
deriving DecidableEq

/-- RGBA color (structures/color.rs collaborator; only the constants used by
screen.rs are needed). -/
structure Color where
  r : Nat
  g : Nat
  b : Nat
  a : Nat
deriving DecidableEq

def DARKGRAY : Color := ⟨80, 80, 80, 255⟩

def WHITE : Color := ⟨255, 255, 255, 255⟩

def BLACK : Color := ⟨0, 0, 0, 255⟩

/-- Models the Rust cast `(e) as i32` applied to the exact rational value of
a float expression: truncation toward zero. -/
def truncRat (q : ℚ) : Int := if 0 ≤ q then ⌊q⌋ else ⌈q⌉

/-- One backend render-target lifecycle event: allocation of target `id` at a
size, or its release. -/
inductive BackendEvent
  | load (id : Nat) (width height : Int)
  | unload (id : Nat)
deriving DecidableEq

/-- The opaque graphics backend, reduced to what the claims observe: a fresh-id
counter and the log of render-target events. -/
structure Backend where
  nextId : Nat
  events : List BackendEvent
deriving DecidableEq

def Backend.initial : Backend := ⟨0, []⟩

/-- RenderTexture (structures/render_texture.rs collaborator): a handle to one
backend-allocated render target, identified by `id`, sized `width × height`. -/
structure RenderTexture where
  id : Nat
  width : Int
  height : Int
deriving DecidableEq

/-- `RenderTexture::load(width, height)`: allocates a fresh backend render
target of the given size, recorded in the event log. -/
def RenderTexture.load (b : Backend) (width height : Int) :
    RenderTexture × Backend :=
  (⟨b.nextId, width, height⟩,
   ⟨b.nextId + 1, b.events ++ [BackendEvent.load b.nextId width height]⟩)

/-- `RenderTexture::unload(&mut self)`: releases the backend render target,
recorded in the event log (a second unload of the same id is a double-free,
visible as a repeated event). -/
def RenderTexture.unload (rt : RenderTexture) (b : Backend) : Backend :=
  ⟨b.nextId, b.events ++ [BackendEvent.unload rt.id]⟩

/-- Screen (screen.rs).  The `def_font` field is omitted: it only supplies the
glyphs for overlay text, whose draw parameters are recorded separately. -/
structure Screen where
  screen : Resolution
  window_state : WindowState
  render : Resolution
  render_ratio : ℚ
  render_texture : Option RenderTexture
  raylib_init : Bool
  background_color : Color
  framerate : Int
deriving DecidableEq

def DEF_SCREEN_WIDTH : Int := 1280

def DEF_SCREEN_HEIGHT : Int := 720

/-- `Screen::new()`. -/
def Screen.new : Screen :=
  { screen := ⟨DEF_SCREEN_WIDTH, DEF_SCREEN_HEIGHT⟩
    window_state := WindowState.Windowed
    render := ⟨DEF_SCREEN_WIDTH, DEF_SCREEN_HEIGHT⟩
    render_ratio := 1
    render_texture := none
    raylib_init := false
    background_color := DARKGRAY
    framerate := 60 }

/-- `Screen::update_render`: unloads the previous texture if present (without
clearing the field), then, only when raylib is initialised, loads a new one at
the current `render` size. -/
def Screen.update_render (s : Screen) (b : Backend) : Screen × Backend :=
  let b1 := match s.render_texture with
    | some rt => rt.unload b
    | none => b
  if s.raylib_init then
    let lb := RenderTexture.load b1 s.render.width s.render.height
    ({ s with render_texture := some lb.1 }, lb.2)
  else (s, b1)

/-- `Screen::init`: marks raylib as initialised (the backend window calls carry
no modelled state) and runs `update_render`. -/
def Screen.init (s : Screen) (b : Backend) : Screen × Backend :=
  Screen.update_render { s with raylib_init := true } b

/-- `Screen::close`: unloads the texture if present — leaving the
`render_texture` field untouched, exactly as the code does — and clears
`raylib_init`. -/
def Screen.close (s : Screen) (b : Backend) : Screen × Backend :=
  let b1 := match s.render_texture with
    | some rt => rt.unload b
    | none => b
  ({ s with raylib_init := false }, b1)

/-- `Screen::toggle_fullscreen`: the `if`/`else` computes the flip, then the
body of the `unsafe` block overwrites `window_state` with `Fullscreen`
unconditionally and resyncs `screen` from the backend-reported size
(`backendWidth`, `backendHeight` stand for `GetScreenWidth()` /
`GetScreenHeight()`), then reallocates via `update_render`. -/
def Screen.toggle_fullscreen (s : Screen) (backendWidth backendHeight : Int)
    (b : Backend) : Screen × Backend :=
  let s1 := if s.window_state ≠ WindowState.Fullscreen
    then { s with window_state := WindowState.Fullscreen }
    else { s with window_state := WindowState.Windowed }
  let s2 := { s1 with window_state := WindowState.Fullscreen
                      screen := ⟨backendWidth, backendHeight⟩ }
  Screen.update_render s2 b

/-- `Screen::toggle_borderless`: same shape as `toggle_fullscreen` with
`Borderless` in place of `Fullscreen`. -/
def Screen.toggle_borderless (s : Screen) (backendWidth backendHeight : Int)
    (b : Backend) : Screen × Backend :=
  let s1 := if s.window_state ≠ WindowState.Borderless
    then { s with window_state := WindowState.Borderless }
    else { s with window_state := WindowState.Windowed }
  let s2 := { s1 with window_state := WindowState.Borderless
                      screen := ⟨backendWidth, backendHeight⟩ }
  Screen.update_render s2 b

/-- `Screen::set_resolution`: sets `screen`, derives `render` through the
float pipeline `(dim as f32) * render_ratio) as i32`, then reallocates. -/
def Screen.set_resolution (s : Screen) (width height : Int) (b : Backend) :
    Screen × Backend :=
  let s1 := { s with
    screen := ⟨width, height⟩
    render := ⟨truncRat ((width : ℚ) * s.render_ratio),
               truncRat ((height : ℚ) * s.render_ratio)⟩ }
  Screen.update_render s1 b

/-- `Screen::set_render_scale`: sets `render_ratio`, re-derives `render` from
the current `screen`, then reallocates. -/
def Screen.set_render_scale (s : Screen) (scale : ℚ) (b : Backend) :
    Screen × Backend :=
  let s1 := { s with
    render_ratio := scale
    render := ⟨truncRat ((s.screen.width : ℚ) * scale),
               truncRat ((s.screen.height : ℚ) * scale)⟩ }
  Screen.update_render s1 b

/-- Vector2 (collaborator type), with `f32` fields idealised as rationals. -/
structure Vector2 where
  x : ℚ
  y : ℚ
deriving DecidableEq

/-- Rectangle (collaborator type), likewise over rationals. -/
structure Rectangle where
  x : ℚ
  y : ℚ
  width : ℚ
  height : ℚ
deriving DecidableEq

/-- The error values `log` receives in screen.rs. -/
inductive Error
  | RenderTextureDoesntExist
deriving DecidableEq

/-- One `def_font.draw(text, position, size, spacing, color)` call made while
compositing the debug overlay. -/
structure TextDraw where
  text : String
  position : Vector2
  size : ℚ
  spacing : ℚ
  color : Color
deriving DecidableEq

/-- One `Texture(...).draw_pro(source, dest, origin, rotation)` call, together
with the texture drawn and its tint. -/
structure Blit where
  textureId : Nat
  source : Rectangle
  dest : Rectangle
  origin : Vector2
  rotation : ℚ
  tint : Color
deriving DecidableEq

/-- Everything one `end_draw` call emits: errors reported through the debug
logging channel (`log(...)`, whose body lives in debug.rs, outside src/ —
modelled from the spec as a report on the logging channel), overlay text
draws, window-level blits, and whether a window draw pass ran
(`BeginDrawing`/`EndDrawing`). -/
structure FrameOutput where
  reported : List Error
  textDraws : List TextDraw
  blits : List Blit
  presented : Bool
deriving DecidableEq

/-- Outcome of one `start_draw` call: errors reported, and whether a texture
draw pass was begun (`begin_texture_mode` + `clear_background`). -/
structure StartOutput where
  reported : List Error
  began : Bool
deriving DecidableEq

/-- The loop over `DEBUG_LOG` inside `end_draw`: every message's ttl is
decremented in place; an expired message pushes the current survivor count
onto the removal list, a surviving one is drawn and bumps the count.
Returns (decremented messages, pushed removal indices, draws in order). -/
def overlayScan (renderHeight : ℚ) :
    List (String × Int) → Int →
      List (String × Int) × List Int × List TextDraw
  | [], _ => ([], [], [])
  | (text, ttl) :: rest, count =>
      let ttl1 := ttl - 1
      if ttl1 ≤ 0 then
        let r := overlayScan renderHeight rest count
        ((text, ttl1) :: r.1, count :: r.2.1, r.2.2)
      else
        let r := overlayScan renderHeight rest (count + 1)
        ((text, ttl1) :: r.1, r.2.1,
         ⟨text, ⟨0, renderHeight - 8 - 10 * (count : ℚ)⟩, 8, 1, BLACK⟩
           :: r.2.2)

/-- The removal pass after the loop: `list.reverse(); for i in list
{ DEBUG_LOG.remove(i as usize) }`.  `Vec::remove` at an index is modelled by
`List.eraseIdx` (Rust would panic out of range; `eraseIdx` is then the
identity — the traces in this development stay in range). -/
def removePass (msgs : List (String × Int)) (idxs : List Int) :
    List (String × Int) :=
  idxs.reverse.foldl (fun acc i => acc.eraseIdx i.toNat) msgs

/-- `Screen::start_draw`: if no render texture exists the method returns at
the `// TODO: Error reporting` comment — nothing is reported and nothing
changes; otherwise it begins the texture draw pass and clears the
background. -/
def Screen.start_draw (s : Screen) : Screen × StartOutput :=
  match s.render_texture with
  | none => (s, ⟨[], false⟩)
  | some _ => (s, ⟨[], true⟩)

/-- `Screen::end_draw`.  With no render texture: `log(RenderTextureDoesntExist)`
and return.  Otherwise: the overlay pass over `DEBUG_LOG` (when it is `some`),
then the texture pass ends and the texture is blitted to the window inside a
`BeginDrawing`/`EndDrawing` pair — source rectangle the full render size with
negated height, destination the full screen size, origin `(0,0)`, rotation 0,
tint `WHITE`.  The `DEBUG_DISPLAY`/`draw_debug` panel (debug.rs, outside src/)
only draws and is not tracked.  Screen fields are never written. -/
def Screen.end_draw (s : Screen) (debugLog : Option (List (String × Int))) :
    Screen × Option (List (String × Int)) × FrameOutput :=
  match s.render_texture with
  | none => (s, debugLog, ⟨[Error.RenderTextureDoesntExist], [], [], false⟩)
  | some rt =>
      let scanned : Option (List (String × Int)) × List TextDraw :=
        match debugLog with
        | none => (none, [])
        | some msgs =>
            let r := overlayScan ((s.render.height : ℚ)) msgs 0
            (some (removePass r.1 r.2.1), r.2.2)
      (s, scanned.1,
        ⟨[], scanned.2,
         [⟨rt.id,
           ⟨0, 0, (s.render.width : ℚ), -((s.render.height : ℚ))⟩,
           ⟨0, 0, (s.screen.width : ℚ), (s.screen.height : ℚ)⟩,
           ⟨0, 0⟩, 0, WHITE⟩],
         true⟩)

/-- Iterated `end_draw`, tracking only the debug-message list (`end_draw`
never writes Screen fields). -/
def endDrawIter (s : Screen) : Nat → Option (List (String × Int)) →
    Option (List (String × Int))
  | 0, dl => dl
  | k + 1, dl => (Screen.end_draw s (endDrawIter s k dl)).2.1

/-- One Screen operation of the lifecycle the claims range over.  The two
toggles carry the size the backend reports after the toggle
(`GetScreenWidth()` / `GetScreenHeight()`). -/
inductive Op
  | init
  | close
  | set_resolution (width height : Int)
  | set_render_scale (scale : ℚ)
  | toggle_fullscreen (backendWidth backendHeight : Int)
  | toggle_borderless (backendWidth backendHeight : Int)

/-- Apply one operation to a Screen/Backend pair. -/
def stepOp (sb : Screen × Backend) : Op → Screen × Backend
  | Op.init => Screen.init sb.1 sb.2
  | Op.close => Screen.close sb.1 sb.2
  | Op.set_resolution w h => Screen.set_resolution sb.1 w h sb.2
  | Op.set_render_scale r => Screen.set_render_scale sb.1 r sb.2
  | Op.toggle_fullscreen bw bh => Screen.toggle_fullscreen sb.1 bw bh sb.2
  | Op.toggle_borderless bw bh => Screen.toggle_borderless sb.1 bw bh sb.2

/-- Run a sequence of operations from a freshly constructed Screen and a
fresh backend. -/
def runOps (ops : List Op) : Screen × Backend :=
  ops.foldl stepOp (Screen.new, Backend.initial)

/-- Operations that end in `update_render` (everything except `close`). -/
def Op.isMutator : Op → Bool
  | Op.close => false
  | _ => true

/-- The two resolution setters, the only operations C10 ranges over. -/
def Op.isSetter : Op → Bool
  | Op.set_resolution _ _ => true
  | Op.set_render_scale _ => true
  | _ => false

/-- Replaying the event log: ids of render targets loaded and not yet
unloaded, oldest first. -/
def liveStep (acc : List Nat) : BackendEvent → List Nat
  | BackendEvent.load id _ _ => acc ++ [id]
  | BackendEvent.unload id => acc.erase id

def liveIds (evs : List BackendEvent) : List Nat := evs.foldl liveStep []

/-- `set_resolution(w, h)` then `set_render_scale(r)`. -/
def resThenScale (s : Screen) (b : Backend) (w h : Int) (r : ℚ) :
    Screen × Backend :=
  let p := Screen.set_resolution s w h b
  Screen.set_render_scale p.1 r p.2

/-- `set_render_scale(r)` then `set_resolution(w, h)`. -/
def scaleThenRes (s : Screen) (b : Backend) (w h : Int) (r : ℚ) :
    Screen × Backend :=
  let p := Screen.set_render_scale s r b
  Screen.set_resolution p.1 w h p.2

/-! ### Surface-lifecycle invariant machinery -/

lemma liveIds_append (l1 l2 : List BackendEvent) :
    liveIds (l1 ++ l2) = l2.foldl liveStep (liveIds l1) := by
  simp [liveIds, List.foldl_append]

lemma liveIds_append_load (l : List BackendEvent) (i : Nat) (w h : Int) :
    liveIds (l ++ [BackendEvent.load i w h]) = liveIds l ++ [i] := by
  simp [liveIds_append, liveStep]

lemma liveIds_append_unload (l : List BackendEvent) (i : Nat) :
    liveIds (l ++ [BackendEvent.unload i]) = (liveIds l).erase i := by
  simp [liveIds_append, liveStep]

/-- The states reachable by Screen operations: when raylib is off no render
target is live; when it is on, exactly the target held in `render_texture` is
live and its size is the current `render` resolution. -/
def GoodState (s : Screen) (b : Backend) : Prop :=
  (s.raylib_init = false ∧ liveIds b.events = []) ∨
  (s.raylib_init = true ∧ ∃ rt, s.render_texture = some rt ∧
    rt.width = s.render.width ∧ rt.height = s.render.height ∧
    liveIds b.events = [rt.id])

lemma goodState_hpre (s : Screen) (b : Backend) (h : GoodState s b) :
    liveIds b.events = [] ∨
      ∃ rt, s.render_texture = some rt ∧ liveIds b.events = [rt.id] := by
  rcases h with ⟨_, h⟩ | ⟨_, rt, hrt, _, _, h⟩
  · exact Or.inl h
  · exact Or.inr ⟨rt, hrt, h⟩

lemma update_render_none_false (s : Screen) (b : Backend)
    (hrt : s.render_texture = none) (hb : s.raylib_init = false) :
    Screen.update_render s b = (s, b) := by
  simp [Screen.update_render, hrt, hb]

lemma update_render_some_false (s : Screen) (b : Backend) (rt : RenderTexture)
    (hrt : s.render_texture = some rt) (hb : s.raylib_init = false) :
    Screen.update_render s b =
      (s, ⟨b.nextId, b.events ++ [BackendEvent.unload rt.id]⟩) := by
  simp [Screen.update_render, hrt, hb, RenderTexture.unload]

lemma update_render_none_true (s : Screen) (b : Backend)
    (hrt : s.render_texture = none) (hb : s.raylib_init = true) :
    Screen.update_render s b =
      ({ s with render_texture := some ⟨b.nextId, s.render.width, s.render.height⟩ },
       ⟨b.nextId + 1,
        b.events ++ [BackendEvent.load b.nextId s.render.width s.render.height]⟩) := by
  simp [Screen.update_render, hrt, hb, RenderTexture.load]

lemma update_render_some_true (s : Screen) (b : Backend) (rt : RenderTexture)
    (hrt : s.render_texture = some rt) (hb : s.raylib_init = true) :
    Screen.update_render s b =
      ({ s with render_texture := some ⟨b.nextId, s.render.width, s.render.height⟩ },
       ⟨b.nextId + 1,
        b.events ++ [BackendEvent.unload rt.id,
          BackendEvent.load b.nextId s.render.width s.render.height]⟩) := by
  simp [Screen.update_render, hrt, hb, RenderTexture.load,
    RenderTexture.unload]

lemma update_render_good (s : Screen) (b : Backend)
    (hpre : liveIds b.events = [] ∨
      ∃ rt, s.render_texture = some rt ∧ liveIds b.events = [rt.id]) :
    GoodState (Screen.update_render s b).1 (Screen.update_render s b).2 := by
  cases hb : s.raylib_init with
  | false =>
      left
      rcases hpre with h | ⟨rt, hrt, h⟩
      · cases hrt2 : s.render_texture with
        | none => rw [update_render_none_false s b hrt2 hb]; exact ⟨hb, h⟩
        | some rt =>
            rw [update_render_some_false s b rt hrt2 hb]
            exact ⟨hb, by simp [liveIds_append_unload, h]⟩
      · rw [update_render_some_false s b rt hrt hb]
        exact ⟨hb, by simp [liveIds_append_unload, h]⟩
  | true =>
      right
      rcases hpre with h | ⟨rt, hrt, h⟩
      · cases hrt2 : s.render_texture with
        | none =>
            rw [update_render_none_true s b hrt2 hb]
            exact ⟨hb, ⟨_, rfl, rfl, rfl, by simp [liveIds_append_load, h]⟩⟩
        | some rt =>
            rw [update_render_some_true s b rt hrt2 hb]
            refine ⟨hb, ⟨_, rfl, rfl, rfl, ?_⟩⟩
            have : (b.events ++ [BackendEvent.unload rt.id]) ++
                [BackendEvent.load b.nextId s.render.width s.render.height] =
                b.events ++ [BackendEvent.unload rt.id,
                  BackendEvent.load b.nextId s.render.width s.render.height] := by
              simp
            rw [← this, liveIds_append_load, liveIds_append_unload, h]
            simp
      · rw [update_render_some_true s b rt hrt hb]
        refine ⟨hb, ⟨_, rfl, rfl, rfl, ?_⟩⟩
        have : (b.events ++ [BackendEvent.unload rt.id]) ++
            [BackendEvent.load b.nextId s.render.width s.render.height] =
            b.events ++ [BackendEvent.unload rt.id,
              BackendEvent.load b.nextId s.render.width s.render.height] := by
          simp
        rw [← this, liveIds_append_load, liveIds_append_unload, h]
        simp

lemma goodState_step (sb : Screen × Backend) (op : Op)
    (h : GoodState sb.1 sb.2) :
    GoodState (stepOp sb op).1 (stepOp sb op).2 := by
  obtain ⟨s, b⟩ := sb
  have hpre := goodState_hpre s b h
  cases op with
  | init => exact update_render_good _ _ hpre
  | close =>
      left
      refine ⟨rfl, ?_⟩
      rcases hpre with h1 | ⟨rt, hrt, h1⟩
      · cases hrt2 : s.render_texture with
        | none => simpa [stepOp, Screen.close, hrt2] using h1
        | some rt =>
            simp [stepOp, Screen.close, hrt2, RenderTexture.unload,
              liveIds_append_unload, h1]
      · simp [stepOp, Screen.close, hrt, RenderTexture.unload,
          liveIds_append_unload, h1]
  | set_resolution w hgt => exact update_render_good _ _ hpre
  | set_render_scale r => exact update_render_good _ _ hpre
  | toggle_fullscreen bw bh =>
      simp only [stepOp, Screen.toggle_fullscreen]
      apply update_render_good
      rcases hpre with h1 | ⟨rt, hrt, h1⟩
      · exact Or.inl h1
      · exact Or.inr ⟨rt, by split <;> simpa using hrt, h1⟩
  | toggle_borderless bw bh =>
      simp only [stepOp, Screen.toggle_borderless]
      apply update_render_good
      rcases hpre with h1 | ⟨rt, hrt, h1⟩
      · exact Or.inl h1
      · exact Or.inr ⟨rt, by split <;> simpa using hrt, h1⟩

lemma goodState_run (ops : List Op) (sb : Screen × Backend)
    (h : GoodState sb.1 sb.2) :
    GoodState (ops.foldl stepOp sb).1 (ops.foldl stepOp sb).2 := by
  induction ops generalizing sb with
  | nil => simpa using h
  | cons op rest ih =>
      rw [List.foldl_cons]
      exact ih _ (goodState_step sb op h)

lemma update_render_after (s1 : Screen) (b : Backend) (rt : RenderTexture)
    (hrt : s1.render_texture = some rt) (hb : s1.raylib_init = true) :
    (Screen.update_render s1 b).2.events =
      b.events ++
        [BackendEvent.unload rt.id,
         BackendEvent.load b.nextId (Screen.update_render s1 b).1.render.width
           (Screen.update_render s1 b).1.render.height] ∧
    (Screen.update_render s1 b).1.render_texture =
      some ⟨b.nextId, (Screen.update_render s1 b).1.render.width,
            (Screen.update_render s1 b).1.render.height⟩ := by
  rw [update_render_some_true s1 b rt hrt hb]
  simp

lemma step_mutator (sb : Screen × Backend) (op : Op) (hm : op.isMutator = true)
    (hinit : sb.1.raylib_init = true) (rt : RenderTexture)
    (hrt : sb.1.render_texture = some rt) :
    (stepOp sb op).2.events =
      sb.2.events ++
        [BackendEvent.unload rt.id,
         BackendEvent.load sb.2.nextId (stepOp sb op).1.render.width
           (stepOp sb op).1.render.height] ∧
    (stepOp sb op).1.render_texture =
      some ⟨sb.2.nextId, (stepOp sb op).1.render.width,
            (stepOp sb op).1.render.height⟩ := by
  obtain ⟨s, b⟩ := sb
  cases op with
  | close => cases hm
  | init => exact update_render_after _ b rt hrt rfl
  | set_resolution w hgt => exact update_render_after _ b rt hrt hinit
  | set_render_scale r => exact update_render_after _ b rt hrt hinit
  | toggle_fullscreen bw bh =>
      simp only [stepOp, Screen.toggle_fullscreen]
      split_ifs with hc
      · exact update_render_after _ b rt hrt hinit
      · exact update_render_after _ b rt hrt hinit
  | toggle_borderless bw bh =>
      simp only [stepOp, Screen.toggle_borderless]
      split_ifs with hc
      · exact update_render_after _ b rt hrt hinit
      · exact update_render_after _ b rt hrt hinit

/-! ### Helper lemmas for the remaining claims -/

lemma truncRat_eq_floor (q : ℚ) (h : 0 ≤ q) : truncRat q = ⌊q⌋ := if_pos h

lemma update_render_fields (s1 : Screen) (b : Backend) :
    (Screen.update_render s1 b).1.screen = s1.screen ∧
    (Screen.update_render s1 b).1.render = s1.render ∧
    (Screen.update_render s1 b).1.render_ratio = s1.render_ratio ∧
    (Screen.update_render s1 b).1.raylib_init = s1.raylib_init := by
  cases hb : s1.raylib_init <;> simp [Screen.update_render, hb]

lemma update_render_last (s1 : Screen) (b : Backend)
    (hb : s1.raylib_init = true) :
    ∃ i, (Screen.update_render s1 b).1.render_texture =
        some ⟨i, s1.render.width, s1.render.height⟩ ∧
      (Screen.update_render s1 b).2.events.getLast? =
        some (BackendEvent.load i s1.render.width s1.render.height) := by
  cases hrt : s1.render_texture with
  | none =>
      rw [update_render_none_true s1 b hrt hb]
      exact ⟨b.nextId, rfl, by simp⟩
  | some rt =>
      rw [update_render_some_true s1 b rt hrt hb]
      refine ⟨b.nextId, rfl, ?_⟩
      have : b.events ++ [BackendEvent.unload rt.id,
          BackendEvent.load b.nextId s1.render.width s1.render.height] =
          (b.events ++ [BackendEvent.unload rt.id]) ++
            [BackendEvent.load b.nextId s1.render.width s1.render.height] := by
        simp
      rw [this]
      simp

lemma set_resolution_fields (s : Screen) (b : Backend) (w h : Int) :
    (Screen.set_resolution s w h b).1.screen = ⟨w, h⟩ ∧
    (Screen.set_resolution s w h b).1.render_ratio = s.render_ratio ∧
    (Screen.set_resolution s w h b).1.raylib_init = s.raylib_init :=
  ⟨(update_render_fields _ b).1, (update_render_fields _ b).2.2.1,
   (update_render_fields _ b).2.2.2⟩

lemma set_render_scale_fields (s : Screen) (b : Backend) (r : ℚ) :
    (Screen.set_render_scale s r b).1.screen = s.screen ∧
    (Screen.set_render_scale s r b).1.render_ratio = r ∧
    (Screen.set_render_scale s r b).1.raylib_init = s.raylib_init :=
  ⟨(update_render_fields _ b).1, (update_render_fields _ b).2.2.1,
   (update_render_fields _ b).2.2.2⟩

lemma set_resolution_spec (s : Screen) (b : Backend) (w h : Int)
    (hb : s.raylib_init = true) :
    (Screen.set_resolution s w h b).1.render =
      ⟨truncRat ((w : ℚ) * s.render_ratio),
       truncRat ((h : ℚ) * s.render_ratio)⟩ ∧
    ∃ i, (Screen.set_resolution s w h b).1.render_texture =
        some ⟨i, truncRat ((w : ℚ) * s.render_ratio),
              truncRat ((h : ℚ) * s.render_ratio)⟩ ∧
      (Screen.set_resolution s w h b).2.events.getLast? =
        some (BackendEvent.load i (truncRat ((w : ℚ) * s.render_ratio))
          (truncRat ((h : ℚ) * s.render_ratio))) :=
  ⟨(update_render_fields _ b).2.1, update_render_last _ b hb⟩

lemma set_render_scale_spec (s : Screen) (b : Backend) (r : ℚ)
    (hb : s.raylib_init = true) :
    (Screen.set_render_scale s r b).1.render =
      ⟨truncRat ((s.screen.width : ℚ) * r),
       truncRat ((s.screen.height : ℚ) * r)⟩ ∧
    ∃ i, (Screen.set_render_scale s r b).1.render_texture =
        some ⟨i, truncRat ((s.screen.width : ℚ) * r),
              truncRat ((s.screen.height : ℚ) * r)⟩ ∧
      (Screen.set_render_scale s r b).2.events.getLast? =
        some (BackendEvent.load i (truncRat ((s.screen.width : ℚ) * r))
          (truncRat ((s.screen.height : ℚ) * r))) :=
  ⟨(update_render_fields _ b).2.1, update_render_last _ b hb⟩

lemma step_setter (sb : Screen × Backend) (op : Op) (hop : op.isSetter = true)
    (h1 : sb.1.render_texture = none) (h2 : sb.1.raylib_init = false) :
    (stepOp sb op).1.render_texture = none ∧
    (stepOp sb op).1.raylib_init = false ∧
    (stepOp sb op).2 = sb.2 := by
  obtain ⟨s, b⟩ := sb
  cases op with
  | init => cases hop
  | close => cases hop
  | toggle_fullscreen bw bh => cases hop
  | toggle_borderless bw bh => cases hop
  | set_resolution w hgt =>
      simp only [stepOp, Screen.set_resolution]
      rw [update_render_none_false _ _ (by exact h1) (by exact h2)]
      exact ⟨h1, h2, rfl⟩
  | set_render_scale r =>
      simp only [stepOp, Screen.set_render_scale]
      rw [update_render_none_false _ _ (by exact h1) (by exact h2)]
      exact ⟨h1, h2, rfl⟩

lemma run_setters (ops : List Op) (hops : ∀ op ∈ ops, op.isSetter = true)
    (sb : Screen × Backend) (h1 : sb.1.render_texture = none)
    (h2 : sb.1.raylib_init = false) :
    (ops.foldl stepOp sb).1.render_texture = none ∧
    (ops.foldl stepOp sb).1.raylib_init = false ∧
    (ops.foldl stepOp sb).2 = sb.2 := by
  induction ops generalizing sb with
  | nil => exact ⟨h1, h2, rfl⟩
  | cons op rest ih =>
      have hstep := step_setter sb op (hops op (by simp)) h1 h2
      rw [List.foldl_cons]
      have hrest := ih (fun o ho => hops o (by simp [ho])) (stepOp sb op)
        hstep.1 hstep.2.1
      exact ⟨hrest.1, hrest.2.1, hrest.2.2.trans hstep.2.2⟩

lemma end_draw_single (s : Screen) (rt : RenderTexture)
    (h : s.render_texture = some rt) (name : String) (m : Int) :
    (Screen.end_draw s (some [(name, m)])).2.1 =
      some (if m - 1 ≤ 0 then [] else [(name, m - 1)]) ∧
    (Screen.end_draw s (some [(name, m)])).2.2.textDraws =
      (if m - 1 ≤ 0 then [] else
        [⟨name, ⟨0, (s.render.height : ℚ) - 8⟩, 8, 1, BLACK⟩]) := by
  by_cases hm : m - 1 ≤ 0 <;>
    simp [Screen.end_draw, h, overlayScan, removePass, hm]

lemma end_draw_empty (s : Screen) (rt : RenderTexture)
    (h : s.render_texture = some rt) :
    (Screen.end_draw s (some [])).2.1 = some [] ∧
    (Screen.end_draw s (some [])).2.2.textDraws = [] := by
  simp [Screen.end_draw, h, overlayScan, removePass]

lemma endDrawIter_single (s : Screen) (rt : RenderTexture)
    (h : s.render_texture = some rt) (name : String) (t : Nat) (ht : 0 < t)
    (k : Nat) :
    endDrawIter s k (some [(name, (t : Int))]) =
      if k < t then some [(name, ((t - k : Nat) : Int))] else some [] := by
  induction k with
  | zero => simp [endDrawIter, ht]
  | succ k ih =>
      simp only [endDrawIter]
      rw [ih]
      by_cases hk : k < t
      · rw [if_pos hk, (end_draw_single s rt h name ((t - k : Nat) : Int)).1]
        by_cases hk1 : k + 1 < t
        · rw [if_neg (show ¬ ((t - k : Nat) : Int) - 1 ≤ 0 by omega),
            if_pos hk1]
          have : ((t - k : Nat) : Int) - 1 = ((t - (k + 1) : Nat) : Int) := by
            omega
          rw [this]
        · rw [if_pos (show ((t - k : Nat) : Int) - 1 ≤ 0 by omega),
            if_neg hk1]
      · rw [if_neg hk, (end_draw_empty s rt h).1,
          if_neg (show ¬ k + 1 < t by omega)]

/-! ### The claims -/

/-- C1: for every positive width `w`, height `h` and positive ratio `r`,
after `set_resolution(w, h)` and `set_render_scale(r)` in either order on an
initialised Screen, the render resolution equals
`(floor(w*r), floor(h*r))` componentwise, the held surface has exactly that
size, and the last backend allocation event — the size at which the
OffscreenSurface was (re)allocated — is at exactly that size. -/
theorem resolution_scale_floor (s : Screen) (b : Backend) (w h : Int) (r : ℚ)
    (hw : 0 < w) (hh : 0 < h) (hr : 0 < r) (hinit : s.raylib_init = true) :
    ((resThenScale s b w h r).1.render = ⟨⌊(w : ℚ) * r⌋, ⌊(h : ℚ) * r⌋⟩ ∧
      ∃ i, (resThenScale s b w h r).1.render_texture =
          some ⟨i, ⌊(w : ℚ) * r⌋, ⌊(h : ℚ) * r⌋⟩ ∧
        (resThenScale s b w h r).2.events.getLast? =
          some (BackendEvent.load i ⌊(w : ℚ) * r⌋ ⌊(h : ℚ) * r⌋)) ∧
    ((scaleThenRes s b w h r).1.render = ⟨⌊(w : ℚ) * r⌋, ⌊(h : ℚ) * r⌋⟩ ∧
      ∃ i, (scaleThenRes s b w h r).1.render_texture =
          some ⟨i, ⌊(w : ℚ) * r⌋, ⌊(h : ℚ) * r⌋⟩ ∧
        (scaleThenRes s b w h r).2.events.getLast? =
          some (BackendEvent.load i ⌊(w : ℚ) * r⌋ ⌊(h : ℚ) * r⌋)) := by
  have hwq : (0 : ℚ) ≤ (w : ℚ) * r :=
    mul_nonneg (by exact_mod_cast hw.le) hr.le
  have hhq : (0 : ℚ) ≤ (h : ℚ) * r :=
    mul_nonneg (by exact_mod_cast hh.le) hr.le
  have hwf := truncRat_eq_floor _ hwq
  have hhf := truncRat_eq_floor _ hhq
  constructor
  · have h1 := set_resolution_fields s b w h
    have h2 := set_render_scale_spec (Screen.set_resolution s w h b).1
      (Screen.set_resolution s w h b).2 r (by rw [h1.2.2]; exact hinit)
    rw [h1.1] at h2
    simp only [resThenScale]
    simpa [hwf, hhf] using h2
  · have h1 := set_render_scale_fields s b r
    have h2 := set_resolution_spec (Screen.set_render_scale s r b).1
      (Screen.set_render_scale s r b).2 w h (by rw [h1.2.2]; exact hinit)
    rw [h1.2.1] at h2
    simp only [scaleThenRes]
    simpa [hwf, hhf] using h2

/-- Witness for C1 at `w = 800`, `h = 600`, `r = 1/2` from a freshly
initialised Screen. -/
theorem resolution_scale_floor_witness :
    (0 : Int) < 800 ∧ (0 : Int) < 600 ∧ (0 : ℚ) < 1 / 2 ∧
    (runOps [Op.init]).1.raylib_init = true ∧
    (resThenScale (runOps [Op.init]).1 (runOps [Op.init]).2 800 600
        (1 / 2)).1.render =
      ⟨⌊(800 : ℚ) * (1 / 2)⌋, ⌊(600 : ℚ) * (1 / 2)⌋⟩ :=
  ⟨by norm_num, by norm_num, by norm_num, rfl,
   ((resolution_scale_floor (runOps [Op.init]).1 (runOps [Op.init]).2 800 600
      (1 / 2) (by norm_num) (by norm_num) (by norm_num) rfl).1).1⟩

/-- C2: along every operation sequence from a fresh Screen, at most one
backend render target is live; while raylib is initialised the held surface's
size equals the current render resolution and its target is the one live
target; and every mutator applied to an initialised state unloads the held
surface and loads a fresh one at the new render size within that same
operation. -/
theorem surface_lifecycle_invariant (ops : List Op) :
    (liveIds (runOps ops).2.events).length ≤ 1 ∧
    ((runOps ops).1.raylib_init = true →
      ∃ rt, (runOps ops).1.render_texture = some rt ∧
        rt.width = (runOps ops).1.render.width ∧
        rt.height = (runOps ops).1.render.height ∧
        liveIds (runOps ops).2.events = [rt.id]) ∧
    (∀ op : Op, op.isMutator = true → (runOps ops).1.raylib_init = true →
      ∃ rt, (runOps ops).1.render_texture = some rt ∧
        (stepOp (runOps ops) op).2.events =
          (runOps ops).2.events ++
            [BackendEvent.unload rt.id,
             BackendEvent.load (runOps ops).2.nextId
               (stepOp (runOps ops) op).1.render.width
               (stepOp (runOps ops) op).1.render.height] ∧
        (stepOp (runOps ops) op).1.render_texture =
          some ⟨(runOps ops).2.nextId,
                (stepOp (runOps ops) op).1.render.width,
                (stepOp (runOps ops) op).1.render.height⟩) := by
  have hg : GoodState (runOps ops).1 (runOps ops).2 :=
    goodState_run ops (Screen.new, Backend.initial) (Or.inl ⟨rfl, rfl⟩)
  refine ⟨?_, ?_, ?_⟩
  · rcases hg with ⟨_, hl⟩ | ⟨_, rt, _, _, _, hl⟩ <;> simp [hl]
  · intro hinit
    rcases hg with ⟨hf, _⟩ | ⟨_, rt, h1, h2, h3, h4⟩
    · exact absurd hf (by simp [hinit])
    · exact ⟨rt, h1, h2, h3, h4⟩
  · intro op hm hinit
    rcases hg with ⟨hf, _⟩ | ⟨_, rt, h1, _, _, _⟩
    · exact absurd hf (by simp [hinit])
    · exact ⟨rt, h1, (step_mutator (runOps ops) op hm hinit rt h1).1,
        (step_mutator (runOps ops) op hm hinit rt h1).2⟩

/-- Witness for C2: the sequence `[init]` followed by the mutator
`set_resolution(640, 480)`. -/
theorem surface_lifecycle_invariant_witness :
    (liveIds (runOps [Op.init]).2.events).length ≤ 1 ∧
    (∃ rt, (runOps [Op.init]).1.render_texture = some rt ∧
      rt.width = (runOps [Op.init]).1.render.width ∧
      rt.height = (runOps [Op.init]).1.render.height ∧
      liveIds (runOps [Op.init]).2.events = [rt.id]) ∧
    (∃ rt, (runOps [Op.init]).1.render_texture = some rt ∧
      (stepOp (runOps [Op.init]) (Op.set_resolution 640 480)).2.events =
        (runOps [Op.init]).2.events ++
          [BackendEvent.unload rt.id,
           BackendEvent.load (runOps [Op.init]).2.nextId
             (stepOp (runOps [Op.init])
               (Op.set_resolution 640 480)).1.render.width
             (stepOp (runOps [Op.init])
               (Op.set_resolution 640 480)).1.render.height] ∧
      (stepOp (runOps [Op.init]) (Op.set_resolution 640 480)).1.render_texture =
        some ⟨(runOps [Op.init]).2.nextId,
              (stepOp (runOps [Op.init])
                (Op.set_resolution 640 480)).1.render.width,
              (stepOp (runOps [Op.init])
                (Op.set_resolution 640 480)).1.render.height⟩) :=
  ⟨(surface_lifecycle_invariant [Op.init]).1,
   (surface_lifecycle_invariant [Op.init]).2.1 rfl,
   (surface_lifecycle_invariant [Op.init]).2.2 (Op.set_resolution 640 480)
     rfl rfl⟩

/-- C3: the code evaluated at the failing inputs.  `toggle_fullscreen` leaves
`window_state` at `Fullscreen` even when it starts at `Fullscreen` (the flip
computed by the `if`/`else` is overwritten by the unconditional assignment),
`toggle_borderless` likewise always lands on `Borderless`, and two
`toggle_fullscreen` calls starting from `Windowed` land on `Fullscreen`
rather than returning to `Windowed`. -/
theorem toggle_always_lands_on_named_state :
    (Screen.toggle_fullscreen
        { Screen.new with window_state := WindowState.Fullscreen }
        1280 720 Backend.initial).1.window_state = WindowState.Fullscreen ∧
    (Screen.toggle_borderless
        { Screen.new with window_state := WindowState.Borderless }
        1280 720 Backend.initial).1.window_state = WindowState.Borderless ∧
    (Screen.toggle_fullscreen
        (Screen.toggle_fullscreen Screen.new 1280 720 Backend.initial).1
        1280 720
        (Screen.toggle_fullscreen Screen.new 1280 720
          Backend.initial).2).1.window_state = WindowState.Fullscreen :=
  ⟨rfl, rfl, rfl⟩

/-- C4: the code evaluated at the failing input.  With messages
`[("a",1), ("b",2), ("c",1)]`, one `end_draw` draws the survivor `"b"` but
then removes it — the removal indices are survivor counts, not positions —
and keeps the expired `"c"` (ttl now 0) in the list. -/
theorem end_draw_overlay_removal_interleaved :
    (Screen.end_draw (runOps [Op.init]).1
        (some [("a", 1), ("b", 2), ("c", 1)])).2.1 = some [("c", 0)] ∧
    ((Screen.end_draw (runOps [Op.init]).1
        (some [("a", 1), ("b", 2), ("c", 1)])).2.2.textDraws.map
      TextDraw.text) = ["b"] :=
  ⟨rfl, rfl⟩

/-- C5 counterexample: a message logged with initial ttl 1 is never rendered —
the first `end_draw` after insertion decrements its ttl to 0 before the draw
test, draws nothing, and removes it — refuting "rendered by exactly
initial_ttl subsequent end_draw calls". -/
theorem debug_message_ttl_one_never_drawn :
    (Screen.end_draw (runOps [Op.init]).1
        (some [("m", 1)])).2.2.textDraws = [] ∧
    (Screen.end_draw (runOps [Op.init]).1 (some [("m", 1)])).2.1 = some [] :=
  ⟨rfl, rfl⟩

/-- C5 (amended): a message with positive initial ttl `t`, alone in the log,
is drawn by the `(k+1)`-th subsequent `end_draw` exactly when `k + 1 < t` —
i.e. on exactly `t - 1` frames, those on which its post-decrement ttl is
still positive — and after the `t`-th `end_draw` it has been removed. -/
theorem debug_message_lifecycle (s : Screen) (rt : RenderTexture)
    (h : s.render_texture = some rt) (name : String) (t : Nat) (ht : 0 < t)
    (k : Nat) :
    ((Screen.end_draw s
        (endDrawIter s k (some [(name, (t : Int))]))).2.2.textDraws =
      if k + 1 < t then
        [⟨name, ⟨0, (s.render.height : ℚ) - 8⟩, 8, 1, BLACK⟩]
      else []) ∧
    endDrawIter s t (some [(name, (t : Int))]) = some [] := by
  constructor
  · rw [endDrawIter_single s rt h name t ht k]
    by_cases hk : k < t
    · rw [if_pos hk, (end_draw_single s rt h name ((t - k : Nat) : Int)).2]
      by_cases hk1 : k + 1 < t
      · rw [if_neg (show ¬ ((t - k : Nat) : Int) - 1 ≤ 0 by omega),
          if_pos hk1]
      · rw [if_pos (show ((t - k : Nat) : Int) - 1 ≤ 0 by omega),
          if_neg hk1]
    · rw [if_neg hk, (end_draw_empty s rt h).2,
        if_neg (show ¬ k + 1 < t by omega)]
  · rw [endDrawIter_single s rt h name t ht t]
    simp

/-- Witness for C5 (amended) at `t = 3`, `k = 0`, on a freshly initialised
Screen. -/
theorem debug_message_lifecycle_witness :
    0 < 3 ∧
    ((Screen.end_draw (runOps [Op.init]).1
        (endDrawIter (runOps [Op.init]).1 0
          (some [("m", ((3 : Nat) : Int))]))).2.2.textDraws =
      if 0 + 1 < 3 then
        [⟨"m", ⟨0, (((runOps [Op.init]).1.render.height : ℚ)) - 8⟩, 8, 1,
          BLACK⟩]
      else []) ∧
    endDrawIter (runOps [Op.init]).1 3 (some [("m", ((3 : Nat) : Int))]) =
      some [] :=
  ⟨by decide,
   (debug_message_lifecycle (runOps [Op.init]).1 ⟨0, 1280, 720⟩ rfl "m" 3
     (by decide) 0).1,
   (debug_message_lifecycle (runOps [Op.init]).1 ⟨0, 1280, 720⟩ rfl "m" 3
     (by decide) 0).2⟩

/-- C6: `end_draw` with no surface reports `RenderTextureDoesntExist` through
the debug logging channel, draws nothing, presents nothing, and returns the
Screen completely unchanged (so `window_state`, `screen` and `render` are
untouched); `start_draw` with no surface likewise changes nothing, so
`start_draw` immediately followed by `end_draw` leaves those fields
untouched. -/
theorem end_draw_no_surface (s : Screen) (dl : Option (List (String × Int)))
    (h : s.render_texture = none) :
    Screen.end_draw s dl =
      (s, dl, ⟨[Error.RenderTextureDoesntExist], [], [], false⟩) ∧
    Screen.start_draw s = (s, ⟨[], false⟩) := by
  refine ⟨?_, ?_⟩ <;> simp [Screen.end_draw, Screen.start_draw, h]

/-- Witness for C6 on a fresh Screen (render_texture is `None`). -/
theorem end_draw_no_surface_witness :
    Screen.end_draw Screen.new none =
      (Screen.new, none, ⟨[Error.RenderTextureDoesntExist], [], [], false⟩) ∧
    Screen.start_draw Screen.new = (Screen.new, ⟨[], false⟩) :=
  end_draw_no_surface Screen.new none rfl

/-- C7: the code evaluated at the failing input.  `start_draw` on a Screen
with no render texture returns with the Screen unchanged and — against the
claim — an empty report list: nothing is sent to the logging channel (the
source holds only a `// TODO: Error reporting` comment there). -/
theorem start_draw_no_surface_silent :
    Screen.start_draw Screen.new = (Screen.new, ⟨[], false⟩) := rfl

/-- C8: the code evaluated at the failing input.  After `init(); close();
set_resolution(800, 600)`, the backend event log shows the single render
target with id 0 unloaded twice: `close` unloads it but leaves
`render_texture` as `Some`, and the next mutator's `update_render` unloads
the same stale handle again — a double-free. -/
theorem close_then_mutator_double_unload :
    (runOps [Op.init, Op.close, Op.set_resolution 800 600]).2.events =
      [BackendEvent.load 0 1280 720, BackendEvent.unload 0,
       BackendEvent.unload 0] ∧
    (runOps [Op.init, Op.close, Op.set_resolution 800 600]).2.events.count
      (BackendEvent.unload 0) = 2 :=
  ⟨rfl, rfl⟩

/-- C9: every `end_draw` with a surface present emits exactly one blit of
that surface's texture: source rectangle the full render size with negated
height (vertical flip), destination rectangle the full screen size, origin
`(0,0)`, rotation 0, white tint — and presents the frame. -/
theorem end_draw_blit_geometry (s : Screen) (rt : RenderTexture)
    (dl : Option (List (String × Int))) (h : s.render_texture = some rt) :
    (Screen.end_draw s dl).2.2.blits =
      [⟨rt.id,
        ⟨0, 0, (s.render.width : ℚ), -((s.render.height : ℚ))⟩,
        ⟨0, 0, (s.screen.width : ℚ), (s.screen.height : ℚ)⟩,
        ⟨0, 0⟩, 0, WHITE⟩] ∧
    (Screen.end_draw s dl).2.2.presented = true := by
  cases dl <;> simp [Screen.end_draw, h]

/-- Witness for C9 on a freshly initialised Screen. -/
theorem end_draw_blit_geometry_witness :
    (runOps [Op.init]).1.render_texture = some ⟨0, 1280, 720⟩ ∧
    (Screen.end_draw (runOps [Op.init]).1 none).2.2.presented = true :=
  ⟨rfl,
   (end_draw_blit_geometry (runOps [Op.init]).1 ⟨0, 1280, 720⟩ none rfl).2⟩

/-- C10: before `init` has ever run, any sequence of `set_resolution` /
`set_render_scale` calls on a fresh Screen leaves `render_texture` equal to
`None` and the backend event log empty (no target is ever allocated), and
`start_draw` / `end_draw` then take the no-surface branch: no draw pass is
begun and no frame is presented. -/
theorem pre_init_no_surface (ops : List Op)
    (hops : ∀ op ∈ ops, op.isSetter = true) :
    (runOps ops).1.render_texture = none ∧
    (runOps ops).2.events = [] ∧
    (runOps ops).1.raylib_init = false ∧
    Screen.start_draw (runOps ops).1 = ((runOps ops).1, ⟨[], false⟩) ∧
    (∀ dl, Screen.end_draw (runOps ops).1 dl =
      ((runOps ops).1, dl,
        ⟨[Error.RenderTextureDoesntExist], [], [], false⟩)) := by
  have hrun := run_setters ops hops (Screen.new, Backend.initial) rfl rfl
  have h1 : (runOps ops).1.render_texture = none := hrun.1
  have h2 : (runOps ops).1.raylib_init = false := hrun.2.1
  have hb : (runOps ops).2 = Backend.initial := hrun.2.2
  refine ⟨h1, by rw [hb]; rfl, h2, ?_, ?_⟩
  · simp [Screen.start_draw, h1]
  · intro dl
    simp [Screen.end_draw, h1]

/-- Witness for C10: the setter sequence
`[set_resolution 800 600, set_render_scale (1/2)]`. -/
theorem pre_init_no_surface_witness :
    (runOps [Op.set_resolution 800 600,
      Op.set_render_scale (1 / 2)]).1.render_texture = none ∧
    (runOps [Op.set_resolution 800 600,
      Op.set_render_scale (1 / 2)]).2.events = [] :=
  ⟨(pre_init_no_surface
      [Op.set_resolution 800 600, Op.set_render_scale (1 / 2)]
      (by intro op hop
          rcases List.mem_cons.mp hop with hop1 | hop2
          · rw [hop1]; rfl
          · rcases List.mem_cons.mp hop2 with hop3 | hop4
            · rw [hop3]; rfl
            · cases hop4)).1,
   (pre_init_no_surface
      [Op.set_resolution 800 600, Op.set_render_scale (1 / 2)]
      (by intro op hop
          rcases List.mem_cons.mp hop with hop1 | hop2
          · rw [hop1]; rfl
          · rcases List.mem_cons.mp hop2 with hop3 | hop4
            · rw [hop3]; rfl
            · cases hop4)).2.1⟩

end Pleroma
